import Mathlib

/-!
# Verification of the V4L2 camera capture core (`capture.c`)

A shallow embedding of the C source in Lean 4.  Machine integers are
modelled as `Nat`/`Int` with explicit reductions modulo `2 ^ 32` where
C unsigned overflow matters.  Device interaction (`ioctl`, `mmap`,
`open`, `close`) is modelled by explicit environments recording the
outcome of every device call, and the observable side effects
(memory mapping, unmapping, diagnostics-sink invocations, stream
control) are recorded in an event trace.
-/

namespace V4L2Camera

/-! ## FormatCodec: `camera_format_id` / `camera_format_name` -/

/-- The value of `(uint32_t) c` where `c` is a (signed, as on x86-64
Linux) `char` holding byte `b < 256`: bytes `≥ 128` are sign-extended,
giving `2^32 - 256 + b`. -/
def charToUInt32 (b : Nat) : Nat :=
  if b < 128 then b else 4294967040 + b

/-- Model of `camera_format_id` (capture.c:12): packs the four characters of a
format tag into a 32-bit identifier with
`(uint32_t) name[0] | ((uint32_t) name[1] << 8) | ((uint32_t) name[2] << 16) | ((uint32_t) name[3] << 24)`.
Each shifted operand is a `uint32_t` value, hence the `% 2 ^ 32`. -/
def camera_format_id (b0 b1 b2 b3 : Nat) : Nat :=
  charToUInt32 b0 ||| (charToUInt32 b1 <<< 8) % 2 ^ 32 |||
    (charToUInt32 b2 <<< 16) % 2 ^ 32 ||| (charToUInt32 b3 <<< 24) % 2 ^ 32

/-- Model of `camera_format_name` (capture.c:18): the four characters stored into
`name[0..3]` (`name[4]` receives the terminating NUL and is not part of
the decoded tag). -/
def camera_format_name (format_id : Nat) : List Nat :=
  [format_id &&& 0xff, (format_id >>> 8) &&& 0xff,
   (format_id >>> 16) &&& 0xff, (format_id >>> 24) &&& 0xff]

/-- Constant `V4L2_PIX_FMT_YUYV`, the fourcc of the packed 4:2:2 format
(`'Y' 'U' 'Y' 'V'` = bytes 89, 85, 89, 86). -/
def V4L2_PIX_FMT_YUYV : Nat := camera_format_id 89 85 89 86

/-! ## FormatCodec: packed 4:2:2 → RGB24 conversion -/

/-- Model of `minmax` (capture.c:284). -/
def minmax (mn v mx : Int) : Int :=
  if v < mn then mn else if mx < v then mx else v

/-- C arithmetic right shift by `n` on a (possibly negative) `int`:
floor division by `2 ^ n`.  Lean's `Int` division is Euclidean, which
coincides with floor division for positive divisors. -/
def sar (x : Int) (n : Nat) : Int := x / 2 ^ n

/-- Model of `yuv2r` (capture.c:288). -/
def yuv2r (y _u v : Int) : Int := minmax 0 (sar (y + 359 * v) 8) 255

/-- Model of `yuv2g` (capture.c:293). -/
def yuv2g (y u v : Int) : Int := minmax 0 (sar (y + 88 * v - 183 * u) 8) 255

/-- Model of `yuv2b` (capture.c:297). -/
def yuv2b (y u _v : Int) : Int := minmax 0 (sar (y + 454 * u) 8) 255

/-- One macropixel step of the conversion loop body (capture.c:321-330):
four source bytes `Y0 U Y1 V` yield six RGB bytes.  `y0` and `y1` are
the luma bytes shifted left by 8, `u` and `v` the chroma bytes less
128, exactly as in the source. -/
def yuyv2rgb_pixels (b0 b1 b2 b3 : Int) : List Int :=
  let y0 := b0 * 256
  let u := b1 - 128
  let y1 := b2 * 256
  let v := b3 - 128
  [yuv2r y0 u v, yuv2g y0 u v, yuv2b y0 u v,
   yuv2r y1 u v, yuv2g y1 u v, yuv2b y1 u v]

/-- The conversion loop: `groups` iterations of the inner body, each
consuming four source bytes (missing bytes read as 0). -/
def yuyv2rgb_go (yuyv : List Int) : Nat → List Int
  | 0 => []
  | g + 1 =>
    yuyv2rgb_pixels (yuyv.getD 0 0) (yuyv.getD 1 0) (yuyv.getD 2 0)
        (yuyv.getD 3 0) ++ yuyv2rgb_go (yuyv.drop 4) g

/-- Model of `yuyv2rgb` (capture.c:302): for each of `height` rows the inner loop
runs for `j = 0, 2, ...` while `j < width`, i.e. `⌈width / 2⌉` times,
each iteration consuming one macropixel. -/
def yuyv2rgb (yuyv : List Int) (width height : Nat) : List Int :=
  yuyv2rgb_go yuyv (height * ((width + 1) / 2))

/-! ## Device model: state, events, and per-call environments -/

/-- Diagnostics severities (`camera_log_t`). -/
inductive LogType
  | error
  | fail
  | info
deriving DecidableEq, Repr

/-- Observable side effects of the operations, in chronological order:
invocations of the diagnostics sink, the payload of a `VIDIOC_S_FMT`
request, the payload of a `VIDIOC_S_PARM` request, mapping and
unmapping of a buffer region, stream-off, enqueueing one buffer,
stream-on, an attempt to close the device handle, release of the
`head` scratch buffer, and release of the device object itself. -/
inductive Event
  | log (t : LogType) (msg : String)
  | sFmt (width height pixelformat fild : Nat)
  | sParm (numerator denominator : Nat)
  | mmap (addr : Nat)
  | munmap (addr len : Nat)
  | streamoff
  | qbuf (index : Nat)
  | streamon
  | closeFd
  | freeHead
  | freeDevice
deriving DecidableEq, Repr

/-- The installed diagnostics sink: the default `log_stderr`, or some
caller-supplied callback. -/
inductive LogSink
  | stderrSink
  | custom (id : Nat)
deriving DecidableEq, Repr

/-- One entry of `camera->buffers`: mapped start address and byte
length (`camera_buffer_t`).  A fresh `calloc`ed entry is `⟨0, 0⟩`. -/
structure CamBuffer where
  start : Nat
  length : Nat
deriving DecidableEq, Repr

/-- The `camera_t` state.  `buffers = none` models a NULL collection
pointer, `head_start = none` a NULL snapshot pointer (`some bytes` its
contents).  `inited` is the source's `initialized` flag. -/
structure Camera where
  fd : Nat
  inited : Bool
  width : Nat
  height : Nat
  buffer_count : Nat
  buffers : Option (List CamBuffer)
  head_length : Nat
  head_start : Option (List Nat)
  context_pointer : Option Nat
  context_log : LogSink
deriving DecidableEq, Repr

/-- Model of `error` (capture.c:42): report via the sink with ERROR severity and
return false.  The event records the sink invocation. -/
def errorEv (msg : String) : Bool × List Event :=
  (false, [Event.log LogType.error msg])

/-- Model of `failure` (capture.c:47): report with FAIL severity, return false. -/
def failureEv (msg : String) : Bool × List Event :=
  (false, [Event.log LogType.fail msg])

/-- Model of `camera_open` (capture.c:64).  `openRes` is the result of the OS
`open` call (`none` = `-1`).  On success every field of the fresh
device is initialized exactly as in the source. -/
def camera_open (openRes : Option Nat) : Option Camera :=
  match openRes with
  | none => none
  | some fd =>
    some { fd := fd
           inited := false
           width := 0
           height := 0
           buffer_count := 0
           buffers := none
           head_length := 0
           head_start := none
           context_pointer := none
           context_log := LogSink.stderrSink }

/-- The camera state `camera_open` builds for descriptor `fd`. -/
def initCam (fd : Nat) : Camera :=
  { fd := fd, inited := false, width := 0, height := 0, buffer_count := 0,
    buffers := none, head_length := 0, head_start := none,
    context_pointer := none, context_log := LogSink.stderrSink }

/-- Model of `free_buffers` (capture.c:83): munmap each of the first `count`
buffers, free the collection (pointer becomes NULL), zero the count. -/
def free_buffers (c : Camera) (count : Nat) : Camera × List Event :=
  let bs := c.buffers.getD []
  ({ c with buffers := none, buffer_count := 0 },
   (List.range count).map fun i =>
     Event.munmap (bs.getD i ⟨0, 0⟩).start (bs.getD i ⟨0, 0⟩).length)

/-- Outcomes of the device calls made by `camera_init`:
`querycap = none` models a failing `VIDIOC_QUERYCAP` ioctl, otherwise
the two capability bits (video capture, streaming).  The cropping
ioctls have no modelled effect: their failure is ignored by the
source. -/
structure InitEnv where
  querycap : Option (Bool × Bool)
deriving Repr

/-- Model of `camera_init` (capture.c:93). -/
def camera_init (env : InitEnv) (c : Camera) : Bool × Camera × List Event :=
  match env.querycap with
  | none => (false, c, (errorEv "VIDIOC_QUERYCAP").2)
  | some (capCapture, capStreaming) =>
    if !capCapture then (false, c, (failureEv "no capture").2)
    else if !capStreaming then (false, c, (failureEv "no streaming").2)
    else (true, { c with inited := true }, [])

/-- Outcomes of the device calls made by `camera_buffer_prepare`:
the granted buffer count from `VIDIOC_REQBUFS` (`none` = ioctl
failure), the per-index `VIDIOC_QUERYBUF` result (buffer length, or
`none` = failure), whether the per-index `mmap` succeeds, and the
address it returns when it does. -/
structure PrepareEnv where
  reqbufs : Option Nat
  querybuf : Nat → Option Nat
  mmapOk : Nat → Bool
  mmapAddr : Nat → Nat

/-- Store `len` into `camera->buffers[i].length`. -/
def setBufLen (c : Camera) (i : Nat) (len : Nat) : Camera :=
  { c with buffers := c.buffers.map fun bs =>
      bs.set i { bs.getD i ⟨0, 0⟩ with length := len } }

/-- Store `addr` into `camera->buffers[i].start`. -/
def setBufStart (c : Camera) (i : Nat) (addr : Nat) : Camera :=
  { c with buffers := c.buffers.map fun bs =>
      bs.set i { bs.getD i ⟨0, 0⟩ with start := addr } }

/-- The per-buffer loop of `camera_buffer_prepare` (capture.c:130-149)
over the remaining indices `l`, with `bufMax` the running maximum
buffer length.  On a `VIDIOC_QUERYBUF` or `mmap` failure at index `i`
it calls `free_buffers` for the `i` buffers mapped so far and reports
via the sink; after the last index it allocates the zeroed `head`
scratch buffer of size `bufMax` (capture.c:150). -/
def prepare_go (env : PrepareEnv) : Camera → Nat → List Nat → Bool × Camera × List Event
  | c, bufMax, [] => (true, { c with head_start := some (List.replicate bufMax 0) }, [])
  | c, bufMax, i :: rest =>
    match env.querybuf i with
    | none =>
      let fb := free_buffers c i
      (false, fb.1, fb.2 ++ (errorEv "VIDIOC_QUERYBUF").2)
    | some len =>
      let bufMax' := if len > bufMax then len else bufMax
      let c' := setBufLen c i len
      if env.mmapOk i then
        let c'' := setBufStart c' i (env.mmapAddr i)
        let r := prepare_go env c'' bufMax' rest
        (r.1, r.2.1, Event.mmap (env.mmapAddr i) :: r.2.2)
      else
        let fb := free_buffers c' i
        (false, fb.1, fb.2 ++ (errorEv "mmap").2)

/-- Model of `camera_buffer_prepare` (capture.c:117): request 4 buffers, record
the granted count, `calloc` the collection, then run the per-buffer
loop. -/
def camera_buffer_prepare (env : PrepareEnv) (c : Camera) : Bool × Camera × List Event :=
  match env.reqbufs with
  | none => (false, c, (errorEv "VIDIOC_REQBUFS").2)
  | some count =>
    prepare_go env
      { c with buffer_count := count,
               buffers := some (List.replicate count ⟨0, 0⟩) }
      0 (List.range count)

/-- Model of `camera_buffer_finish` (capture.c:154): free all buffers, free the
`head` scratch buffer, zero its recorded length. -/
def camera_buffer_finish (c : Camera) : Camera × List Event :=
  let fb := free_buffers c c.buffer_count
  ({ fb.1 with head_length := 0, head_start := none },
   fb.2 ++ [Event.freeHead])

/-- Model of `camera_load_settings` (capture.c:162): `gfmt` is the
`VIDIOC_G_FMT` result (negotiated width and height). -/
def camera_load_settings (gfmt : Option (Nat × Nat)) (c : Camera) :
    Bool × Camera × List Event :=
  match gfmt with
  | none => (false, c, (errorEv "VIDIOC_G_FMT").2)
  | some (w, h) => (true, { c with width := w, height := h }, [])

/-- The requested `camera_config_t`. -/
structure CamConfig where
  width : Nat
  height : Nat
  format : Nat
  interval_numerator : Nat
  interval_denominator : Nat
deriving Repr

/-- Outcomes of the two ioctls of `camera_set_config`. -/
structure SetConfigEnv where
  sfmt_ok : Bool
  sparm_ok : Bool
deriving Repr

/-- Constant `V4L2_FIELD_NONE` (the field order forced by the source). -/
def V4L2_FIELD_NONE : Nat := 1

/-- Model of `camera_set_config` (capture.c:174).  Note (capture.c:177): the
source computes `config->format || V4L2_PIX_FMT_YUYV` with C's
*logical* or, whose value is 1 when either operand is nonzero and 0
otherwise — modelled verbatim here. -/
def camera_set_config (env : SetConfigEnv) (c : Camera) (config : CamConfig) :
    Bool × Camera × List Event :=
  let fmtStep : Bool × List Event :=
    if config.width > 0 && config.height > 0 then
      let pixformat : Nat :=
        if config.format != 0 || V4L2_PIX_FMT_YUYV != 0 then 1 else 0
      let ev := Event.sFmt config.width config.height pixformat V4L2_FIELD_NONE
      if env.sfmt_ok then (true, [ev])
      else (false, [ev] ++ (errorEv "VIDIOC_S_FMT").2)
    else (true, [])
  if !fmtStep.1 then (false, c, fmtStep.2)
  else
    let parmStep : Bool × List Event :=
      if config.interval_numerator != 0 && config.interval_denominator != 0 then
        let ev := Event.sParm config.interval_numerator config.interval_denominator
        if env.sparm_ok then (true, [ev])
        else (false, [ev] ++ (errorEv "VIDIOC_S_PARM").2)
      else (true, [])
    (parmStep.1, c, fmtStep.2 ++ parmStep.2)

/-- Model of `camera_stop` (capture.c:200): issue `VIDIOC_STREAMOFF`
(`streamoff_ok` is its outcome). -/
def camera_stop (streamoff_ok : Bool) (c : Camera) : Bool × Camera × List Event :=
  if streamoff_ok then (true, c, [Event.streamoff])
  else (false, c, [Event.streamoff] ++ (errorEv "VIDIOC_STREAMOFF").2)

/-- Outcomes of every device call a `camera_config` run may make. -/
structure ConfigEnv where
  streamoff_ok : Bool
  init : InitEnv
  setcfg : SetConfigEnv
  gfmt : Option (Nat × Nat)
  prep : PrepareEnv

/-- Model of `camera_config` (capture.c:209): tear down any existing buffer set
(stop streaming, release buffers), ensure initialization, apply the
requested configuration, read back the negotiated format, then
allocate the new buffer set. -/
def camera_config (env : ConfigEnv) (c : Camera) (config : CamConfig) :
    Bool × Camera × List Event :=
  let teardown : Bool × Camera × List Event :=
    if c.buffer_count > 0 then
      let st := camera_stop env.streamoff_ok c
      if !st.1 then (false, st.2.1, st.2.2)
      else
        let fin := camera_buffer_finish st.2.1
        (true, fin.1, st.2.2 ++ fin.2)
    else (true, c, [])
  if !teardown.1 then (false, teardown.2.1, teardown.2.2)
  else
    let c1 := teardown.2.1
    let initStep : Bool × Camera × List Event :=
      if !c1.inited then camera_init env.init c1 else (true, c1, [])
    if !initStep.1 then
      (false, initStep.2.1, teardown.2.2 ++ initStep.2.2)
    else
      let c2 := initStep.2.1
      let sc := camera_set_config env.setcfg c2 config
      if !sc.1 then (false, sc.2.1, teardown.2.2 ++ initStep.2.2 ++ sc.2.2)
      else
        let c3 := sc.2.1
        let ls := camera_load_settings env.gfmt c3
        if !ls.1 then
          (false, ls.2.1, teardown.2.2 ++ initStep.2.2 ++ sc.2.2 ++ ls.2.2)
        else
          let c4 := ls.2.1
          let pr := camera_buffer_prepare env.prep c4
          (pr.1, pr.2.1,
           teardown.2.2 ++ initStep.2.2 ++ sc.2.2 ++ ls.2.2 ++ pr.2.2)

/-- Outcomes of every device call a `camera_start` run may make:
initialization and lazy-configuration outcomes, the per-index
`VIDIOC_QBUF` outcome, and the `VIDIOC_STREAMON` outcome. -/
structure StartEnv where
  init : InitEnv
  gfmt : Option (Nat × Nat)
  prep : PrepareEnv
  qbuf : Nat → Bool
  streamon_ok : Bool

/-- Model of `camera_load` (capture.c:223): ensure initialization, and
when no buffer set exists yet, read the current format back and
allocate buffers lazily. -/
def camera_load (env : StartEnv) (c : Camera) : Bool × Camera × List Event :=
  let initStep : Bool × Camera × List Event :=
    if !c.inited then camera_init env.init c else (true, c, [])
  if !initStep.1 then (false, initStep.2.1, initStep.2.2)
  else
    let c1 := initStep.2.1
    if c1.buffer_count == 0 then
      let ls := camera_load_settings env.gfmt c1
      if !ls.1 then (false, ls.2.1, initStep.2.2 ++ ls.2.2)
      else
        let pr := camera_buffer_prepare env.prep ls.2.1
        (pr.1, pr.2.1, initStep.2.2 ++ ls.2.2 ++ pr.2.2)
    else (true, c1, initStep.2.2)

/-- The enqueue loop of `camera_start` (capture.c:239-247): issue
`VIDIOC_QBUF` for each index, reporting via the sink and returning
false on the first failure (the partial enqueue state is not rolled
back). -/
def qbuf_loop (res : Nat → Bool) : List Nat → Bool × List Event
  | [] => (true, [])
  | i :: rest =>
    if res i then
      let r := qbuf_loop res rest
      (r.1, Event.qbuf i :: r.2)
    else (false, [Event.qbuf i, Event.log LogType.error "VIDIOC_QBUF"])

/-- Model of `camera_start` (capture.c:235): load (lazily configuring
if needed), enqueue every buffer, then issue `VIDIOC_STREAMON`,
reporting each ioctl failure via the sink with ERROR severity. -/
def camera_start (env : StartEnv) (c : Camera) : Bool × Camera × List Event :=
  let ld := camera_load env c
  if !ld.1 then (false, ld.2.1, ld.2.2)
  else
    let c1 := ld.2.1
    let ql := qbuf_loop env.qbuf (List.range c1.buffer_count)
    if !ql.1 then (false, c1, ld.2.2 ++ ql.2)
    else if env.streamon_ok then (true, c1, ld.2.2 ++ ql.2 ++ [Event.streamon])
    else (false, c1,
      ld.2.2 ++ ql.2 ++ [Event.streamon] ++ (errorEv "VIDIOC_STREAMON").2)

/-- The bounded retry loop of `camera_close` (capture.c:262): attempt
`close(fd)` for each index in the list, stopping after the first
success.  `res i` is the outcome of attempt `i`. -/
def close_attempts (res : Nat → Bool) : List Nat → List Event
  | [] => []
  | i :: rest =>
    if res i then [Event.closeFd]
    else Event.closeFd :: close_attempts res rest

/-- Model of `camera_close` (capture.c:256): best-effort stream-off and buffer
release when buffers exist (the stream-off result is ignored), then
the handle is closed with up to 10 attempts (failures swallowed), the
device object is freed, and `true` is returned unconditionally. -/
def camera_close (streamoff_ok : Bool) (closeRes : Nat → Bool) (c : Camera) :
    Bool × List Event :=
  let teardown : List Event :=
    if c.buffer_count > 0 then
      let st := camera_stop streamoff_ok c
      let fin := camera_buffer_finish st.2.1
      st.2.2 ++ fin.2
    else []
  (true, teardown ++ close_attempts closeRes (List.range 10) ++ [Event.freeDevice])

/-- Outcomes of the device calls of `camera_capture`: the
`VIDIOC_DQBUF` result (`none` = failure, otherwise dequeued buffer
index and `bytesused`), the frame bytes visible in the dequeued
buffer's mapped memory, and the `VIDIOC_QBUF` requeue outcome. -/
structure CaptureEnv where
  dqbuf : Option (Nat × Nat)
  frame : List Nat
  qbuf_ok : Bool

/-- Model of `camera_capture` (capture.c:270): dequeue a completed buffer
(returning false at once when none is available), `memcpy` `bytesused`
frame bytes into the `head` snapshot, record the length, requeue the
buffer.  Neither failure path invokes the diagnostics sink. -/
def camera_capture (env : CaptureEnv) (c : Camera) : Bool × Camera × List Event :=
  match env.dqbuf with
  | none => (false, c, [])
  | some (_index, bytesused) =>
    let oldHead := c.head_start.getD []
    let c' := { c with
      head_start := some (env.frame.take bytesused ++ oldHead.drop bytesused),
      head_length := bytesused }
    if env.qbuf_ok then (true, c', []) else (false, c', [])

/-- Model of `camera_control_get` (capture.c:428): `gctrl` is the
`VIDIOC_G_CTRL` outcome, `value` the caller's out-parameter variable;
the returned pair is (result, value variable after the call). -/
def camera_control_get (gctrl : Option Int) (value : Int) :
    Bool × Int × List Event :=
  match gctrl with
  | none => (false, value, (errorEv "VIDIOC_G_CTRL").2)
  | some v => (true, v, [])

/-- Model of `camera_control_set` (capture.c:439). -/
def camera_control_set (sctrl_ok : Bool) : Bool × List Event :=
  if sctrl_ok then (true, []) else (false, (errorEv "VIDIOC_S_CTRL").2)

/-- A concrete device state holding one mapped buffer, used to
exercise the `camera_close` teardown path. -/
def camClose1 : Camera :=
  { initCam 3 with buffer_count := 1, buffers := some [⟨100, 4096⟩] }

/-- A streaming-ready device state: initialized, one buffer recorded,
with an arbitrary collection pointer `bs`; used to exercise the
enqueue and stream-on error paths of `camera_start`. -/
def startCam (fd : Nat) (bs : Option (List CamBuffer)) : Camera :=
  { initCam fd with inited := true, buffer_count := 1, buffers := bs }

/-- A concrete requested configuration (640×480). -/
def cfg1W : CamConfig := ⟨640, 480, 0, 1, 30⟩

/-- A concrete requested configuration with different dimensions. -/
def cfg2W : CamConfig := ⟨320, 240, 0, 1, 30⟩

/-- A concrete all-success device environment granting 4 buffers. -/
def env1W : ConfigEnv :=
  ⟨true, ⟨some (true, true)⟩, ⟨true, true⟩, some (640, 480),
   ⟨some 4, fun _ => some 65536, fun _ => true, fun i => 4096 + i⟩⟩

/-- A second all-success device environment granting 4 buffers. -/
def env2W : ConfigEnv :=
  ⟨true, ⟨some (true, true)⟩, ⟨true, true⟩, some (320, 240),
   ⟨some 4, fun _ => some 32768, fun _ => true, fun i => 8192 + i⟩⟩

/-! ## Theorems -/

/-- C9: on successful `open()` the returned device is fully initial:
zero width, height, buffer count and snapshot length, null buffer
collection and snapshot memory, uninitialized flag, and the default
standard-error diagnostics sink with a null user pointer. -/
theorem open_success_initial_state (fd : Nat) (c : Camera)
    (h : camera_open (some fd) = some c) :
    c.width = 0 ∧ c.height = 0 ∧ c.buffer_count = 0 ∧ c.head_length = 0 ∧
    c.buffers = none ∧ c.head_start = none ∧ c.inited = false ∧
    c.context_pointer = none ∧ c.context_log = LogSink.stderrSink := by
  have hc : c = initCam fd := by
    simpa [camera_open, initCam] using h.symm
  subst hc
  exact ⟨rfl, rfl, rfl, rfl, rfl, rfl, rfl, rfl, rfl⟩

/-- Witness for C9 at `fd = 0`. -/
theorem open_success_initial_state_witness :
    (initCam 0).width = 0 ∧ (initCam 0).height = 0 ∧
    (initCam 0).buffer_count = 0 ∧ (initCam 0).head_length = 0 ∧
    (initCam 0).buffers = none ∧ (initCam 0).head_start = none ∧
    (initCam 0).inited = false ∧ (initCam 0).context_pointer = none ∧
    (initCam 0).context_log = LogSink.stderrSink :=
  open_success_initial_state 0 (initCam 0) rfl

/-- C10: if the `VIDIOC_G_CTRL` ioctl fails, `camera_control_get`
returns false and leaves the caller's out-parameter variable
unchanged; on success it stores the control's value there and returns
true. -/
theorem control_get_out_param :
    (∀ v : Int, camera_control_get none v =
      (false, v, [Event.log LogType.error "VIDIOC_G_CTRL"])) ∧
    (∀ x v : Int, camera_control_get (some x) v = (true, x, [])) :=
  ⟨fun _ => rfl, fun _ _ => rfl⟩

/-- C3: if the dequeue inside `capture()` fails (no completed buffer
available), `capture()` returns false immediately and the whole device
state — in particular the FrameSnapshot contents and recorded
length — is unchanged. -/
theorem capture_dequeue_failure_no_mutation (frame : List Nat) (qb : Bool)
    (c : Camera) :
    camera_capture ⟨none, frame, qb⟩ c = (false, c, []) ∧
    (camera_capture ⟨none, frame, qb⟩ c).2.1.head_start = c.head_start ∧
    (camera_capture ⟨none, frame, qb⟩ c).2.1.head_length = c.head_length :=
  ⟨rfl, rfl, rfl⟩

/-- C1: with nonzero width and height and `format_tag = 0`, the
`VIDIOC_S_FMT` request carries pixel format 1 — the value of the C
*logical* or `config->format || V4L2_PIX_FMT_YUYV` — and not the
packed 4:2:2 (YUYV) identifier the spec intends. -/
theorem set_config_format_zero_requests_one_not_yuyv :
    camera_set_config ⟨true, true⟩ (initCam 3) ⟨640, 480, 0, 0, 0⟩ =
      (true, initCam 3, [Event.sFmt 640 480 1 V4L2_FIELD_NONE]) ∧
    (1 : Nat) ≠ V4L2_PIX_FMT_YUYV :=
  ⟨rfl, by decide⟩

/-- C6 counterexample: `capture()` with a failing dequeue ioctl
returns false yet invokes the diagnostics sink with no message at all,
contradicting "always surfaced via the diagnostics sink with the
failing operation's name". -/
theorem capture_failure_logs_nothing_cex :
    (camera_capture ⟨none, [], true⟩ (initCam 3)).1 = false ∧
    ∀ t m, Event.log t m ∉ (camera_capture ⟨none, [], true⟩ (initCam 3)).2.2 := by
  refine ⟨rfl, ?_⟩
  intro t m h
  simp [camera_capture] at h

/-- C6 amended: every operation other than `capture()` that fails
because an underlying device call reported an OS-level error surfaces
the failing operation's name through the sink with ERROR severity and
returns false — one clause per `error()` call site in the source:
`VIDIOC_QUERYCAP` (capture.c:96), `VIDIOC_REQBUFS` (c:125),
`VIDIOC_QUERYBUF` (c:138), `mmap` (c:147), `VIDIOC_G_FMT` (c:168),
`VIDIOC_S_FMT` (c:186), `VIDIOC_S_PARM` (c:195), `VIDIOC_STREAMOFF`
(c:204), `VIDIOC_QBUF` (c:246), `VIDIOC_STREAMON` (c:251),
`VIDIOC_G_CTRL` (c:434) and `VIDIOC_S_CTRL` (c:445) — while
`capture()`'s dequeue and requeue failures return false without
invoking the sink at all. -/
theorem error_logging_amended :
    (∀ c, camera_init ⟨none⟩ c =
      (false, c, [Event.log LogType.error "VIDIOC_QUERYCAP"])) ∧
    (∀ c qb mo ma, camera_buffer_prepare ⟨none, qb, mo, ma⟩ c =
      (false, c, [Event.log LogType.error "VIDIOC_REQBUFS"])) ∧
    (∀ c ma, camera_buffer_prepare ⟨some 4, fun _ => none, fun _ => true, ma⟩ c =
      (false, { c with buffers := none, buffer_count := 0 },
       [Event.log LogType.error "VIDIOC_QUERYBUF"])) ∧
    (∀ c ma, camera_buffer_prepare ⟨some 4, fun _ => some 4096, fun _ => false, ma⟩ c =
      (false, { c with buffers := none, buffer_count := 0 },
       [Event.log LogType.error "mmap"])) ∧
    (∀ c, camera_load_settings none c =
      (false, c, [Event.log LogType.error "VIDIOC_G_FMT"])) ∧
    (∀ c, camera_set_config ⟨false, true⟩ c ⟨640, 480, 0, 0, 0⟩ =
      (false, c, [Event.sFmt 640 480 1 V4L2_FIELD_NONE,
                  Event.log LogType.error "VIDIOC_S_FMT"])) ∧
    (∀ c, camera_set_config ⟨true, false⟩ c ⟨640, 480, 0, 1, 30⟩ =
      (false, c, [Event.sFmt 640 480 1 V4L2_FIELD_NONE, Event.sParm 1 30,
                  Event.log LogType.error "VIDIOC_S_PARM"])) ∧
    (∀ c, camera_stop false c =
      (false, c, [Event.streamoff, Event.log LogType.error "VIDIOC_STREAMOFF"])) ∧
    (∀ fd bs ie g pr so, camera_start ⟨ie, g, pr, fun _ => false, so⟩ (startCam fd bs) =
      (false, startCam fd bs,
       [Event.qbuf 0, Event.log LogType.error "VIDIOC_QBUF"])) ∧
    (∀ fd bs ie g pr, camera_start ⟨ie, g, pr, fun _ => true, false⟩ (startCam fd bs) =
      (false, startCam fd bs,
       [Event.qbuf 0, Event.streamon,
        Event.log LogType.error "VIDIOC_STREAMON"])) ∧
    (∀ v, camera_control_get none v =
      (false, v, [Event.log LogType.error "VIDIOC_G_CTRL"])) ∧
    (camera_control_set false = (false, [Event.log LogType.error "VIDIOC_S_CTRL"])) ∧
    (∀ frame qb c, camera_capture ⟨none, frame, qb⟩ c = (false, c, [])) ∧
    (∀ idx n frame c, (camera_capture ⟨some (idx, n), frame, false⟩ c).1 = false ∧
      ∀ t m, Event.log t m ∉ (camera_capture ⟨some (idx, n), frame, false⟩ c).2.2) := by
  refine ⟨fun c => rfl, fun c qb mo ma => rfl, fun c ma => rfl, fun c ma => rfl,
    fun c => rfl, fun c => rfl, fun c => rfl, fun c => rfl,
    fun fd bs ie g pr so => rfl, fun fd bs ie g pr => rfl, fun v => rfl, rfl,
    fun frame qb c => rfl, fun idx n frame c => ⟨rfl, ?_⟩⟩
  intro t m h
  simp [camera_capture] at h

/-- Every clamped value lies in `[0, 255]`. -/
theorem minmax_mem (v : Int) : 0 ≤ minmax 0 v 255 ∧ minmax 0 v 255 ≤ 255 := by
  unfold minmax
  split <;> [omega; skip]
  split <;> omega

/-- Every channel of one converted macropixel lies in `[0, 255]`. -/
theorem pixels_mem (b0 b1 b2 b3 : Int) :
    ∀ x ∈ yuyv2rgb_pixels b0 b1 b2 b3, 0 ≤ x ∧ x ≤ 255 := by
  intro x hx
  simp only [yuyv2rgb_pixels, yuv2r, yuv2g, yuv2b, List.mem_cons,
    List.not_mem_nil, or_false] at hx
  rcases hx with h | h | h | h | h | h <;> subst h <;> exact minmax_mem _

/-- Every channel produced by the conversion loop lies in `[0, 255]`. -/
theorem yuyv2rgb_go_mem (g : Nat) :
    ∀ (yuyv : List Int), ∀ x ∈ yuyv2rgb_go yuyv g, 0 ≤ x ∧ x ≤ 255 := by
  induction g with
  | zero => intro yuyv x hx; simp [yuyv2rgb_go] at hx
  | succ g ih =>
    intro yuyv x hx
    simp only [yuyv2rgb_go, List.mem_append] at hx
    rcases hx with hx | hx
    · exact pixels_mem _ _ _ _ x hx
    · exact ih _ x hx

/-- C7: for all luma/chroma byte inputs — indeed for arbitrary integer
inputs, covering every out-of-range synthetic combination — every RGB
channel value produced by the packed 4:2:2 to RGB24 conversion lies in
`[0, 255]`; no channel wraps around. -/
theorem rgb_channels_clamped (yuyv : List Int) (width height : Nat) :
    ∀ x ∈ yuyv2rgb yuyv width height, 0 ≤ x ∧ x ≤ 255 :=
  fun x hx => yuyv2rgb_go_mem _ yuyv x hx

/-- Witness for C7 at the synthetic frame `Y=U=Y=V=255` (2×1). -/
theorem rgb_channels_clamped_witness : (0 : Int) ≤ 255 ∧ (255 : Int) ≤ 255 :=
  rgb_channels_clamped [255, 255, 255, 255] 2 1 255 (by decide)

/-- C8: `close()` always returns true, swallowing stream-off and OS
close failures; when buffers are allocated the trace starts with
stream-off, unmaps every buffer and frees the FrameSnapshot before any
close of the handle, and frees the device object last. -/
theorem close_always_true_and_teardown_order (so : Bool) (cr : Nat → Bool)
    (c : Camera) :
    (camera_close so cr c).1 = true ∧
    (0 < c.buffer_count →
      ∃ pre, (camera_close so cr c).2 =
          pre ++ close_attempts cr (List.range 10) ++ [Event.freeDevice] ∧
        pre.head? = some Event.streamoff ∧
        (∀ i < c.buffer_count,
          Event.munmap ((c.buffers.getD []).getD i ⟨0, 0⟩).start
            ((c.buffers.getD []).getD i ⟨0, 0⟩).length ∈ pre) ∧
        Event.freeHead ∈ pre ∧ Event.closeFd ∉ pre) := by
  refine ⟨rfl, fun hbc => ?_⟩
  refine ⟨(camera_stop so c).2.2 ++ (camera_buffer_finish c).2, ?_, ?_, ?_, ?_, ?_⟩
  · simp only [camera_close, if_pos hbc]
    cases so <;> simp [camera_stop]
  · cases so <;> simp [camera_stop]
  · intro i hi
    have : Event.munmap ((c.buffers.getD []).getD i ⟨0, 0⟩).start
        ((c.buffers.getD []).getD i ⟨0, 0⟩).length ∈ (camera_buffer_finish c).2 := by
      simp only [camera_buffer_finish, free_buffers, List.mem_append, List.mem_map]
      exact Or.inl ⟨i, List.mem_range.mpr hi, rfl⟩
    exact List.mem_append.mpr (Or.inr this)
  · exact List.mem_append.mpr (Or.inr (by simp [camera_buffer_finish]))
  · intro hmem
    rcases List.mem_append.mp hmem with h | h
    · cases so <;> simp [camera_stop, errorEv] at h
    · simp [camera_buffer_finish, free_buffers] at h

/-- Witness for C8 on a device holding one mapped buffer. -/
theorem close_always_true_and_teardown_order_witness :
    ∃ pre, (camera_close true (fun _ => true) camClose1).2 =
        pre ++ close_attempts (fun _ => true) (List.range 10) ++ [Event.freeDevice] ∧
      pre.head? = some Event.streamoff ∧
      (∀ i < camClose1.buffer_count,
        Event.munmap ((camClose1.buffers.getD []).getD i ⟨0, 0⟩).start
          ((camClose1.buffers.getD []).getD i ⟨0, 0⟩).length ∈ pre) ∧
      Event.freeHead ∈ pre ∧ Event.closeFd ∉ pre :=
  (close_always_true_and_teardown_order true (fun _ => true) camClose1).2
    (by decide)

/-- A byte has no bits at positions 8 and above. -/
theorem byte_testBit_high {b i : Nat} (hb : b < 256) (hi : 8 ≤ i) :
    b.testBit i = false := by
  apply Nat.testBit_lt_two_pow
  calc b < 256 := hb
    _ = 2 ^ 8 := rfl
    _ ≤ 2 ^ i := Nat.pow_le_pow_right (by omega) hi

/-- For ASCII bytes the sign extension in `camera_format_id` is the
identity and the 32-bit reductions vanish. -/
theorem format_id_ascii (b0 b1 b2 b3 : Nat)
    (h0 : b0 < 128) (h1 : b1 < 128) (h2 : b2 < 128) (h3 : b3 < 128) :
    camera_format_id b0 b1 b2 b3 = b0 ||| b1 <<< 8 ||| b2 <<< 16 ||| b3 <<< 24 := by
  unfold camera_format_id charToUInt32
  rw [if_pos h0, if_pos h1, if_pos h2, if_pos h3,
    Nat.mod_eq_of_lt (show b1 <<< 8 < 2 ^ 32 by rw [Nat.shiftLeft_eq]; omega),
    Nat.mod_eq_of_lt (show b2 <<< 16 < 2 ^ 32 by rw [Nat.shiftLeft_eq]; omega),
    Nat.mod_eq_of_lt (show b3 <<< 24 < 2 ^ 32 by rw [Nat.shiftLeft_eq]; omega)]

/-- Extracting byte 0 of a little-endian byte packing. -/
theorem extract_byte0 {b0 b1 b2 b3 : Nat} (h0 : b0 < 256) :
    (b0 ||| b1 <<< 8 ||| b2 <<< 16 ||| b3 <<< 24) &&& 0xff = b0 := by
  apply Nat.eq_of_testBit_eq
  intro i
  simp only [Nat.testBit_and, Nat.testBit_or, Nat.testBit_shiftLeft]
  rw [show (0xff : Nat) = 2 ^ 8 - 1 from rfl, Nat.testBit_two_pow_sub_one]
  by_cases hi : i < 8
  · simp [hi, show ¬ (8 ≤ i) by omega, show ¬ (16 ≤ i) by omega,
      show ¬ (24 ≤ i) by omega]
  · simp [hi, byte_testBit_high h0 (show 8 ≤ i by omega)]

/-- Extracting byte 1 of a little-endian byte packing. -/
theorem extract_byte1 {b0 b1 b2 b3 : Nat} (h0 : b0 < 256) (h1 : b1 < 256) :
    ((b0 ||| b1 <<< 8 ||| b2 <<< 16 ||| b3 <<< 24) >>> 8) &&& 0xff = b1 := by
  apply Nat.eq_of_testBit_eq
  intro i
  simp only [Nat.testBit_and, Nat.testBit_shiftRight, Nat.testBit_or,
    Nat.testBit_shiftLeft]
  rw [show (0xff : Nat) = 2 ^ 8 - 1 from rfl, Nat.testBit_two_pow_sub_one]
  by_cases hi : i < 8
  · simp [hi, byte_testBit_high h0 (show 8 ≤ 8 + i by omega),
      show (8 : Nat) ≤ 8 + i by omega, show ¬ (16 ≤ 8 + i) by omega,
      show ¬ (24 ≤ 8 + i) by omega, Nat.add_sub_cancel_left]
  · simp [hi, byte_testBit_high h1 (show 8 ≤ i by omega)]

/-- Extracting byte 2 of a little-endian byte packing. -/
theorem extract_byte2 {b0 b1 b2 b3 : Nat}
    (h0 : b0 < 256) (h1 : b1 < 256) (h2 : b2 < 256) :
    ((b0 ||| b1 <<< 8 ||| b2 <<< 16 ||| b3 <<< 24) >>> 16) &&& 0xff = b2 := by
  apply Nat.eq_of_testBit_eq
  intro i
  simp only [Nat.testBit_and, Nat.testBit_shiftRight, Nat.testBit_or,
    Nat.testBit_shiftLeft]
  rw [show (0xff : Nat) = 2 ^ 8 - 1 from rfl, Nat.testBit_two_pow_sub_one]
  by_cases hi : i < 8
  · have e1 : 16 + i - 8 = 8 + i := by omega
    have e2 : 16 + i - 16 = i := by omega
    simp [hi, byte_testBit_high h0 (show 8 ≤ 16 + i by omega),
      byte_testBit_high h1 (show 8 ≤ 8 + i by omega),
      show (8 : Nat) ≤ 16 + i by omega, show (16 : Nat) ≤ 16 + i by omega,
      show ¬ (24 ≤ 16 + i) by omega, e1, e2]
  · simp [hi, byte_testBit_high h2 (show 8 ≤ i by omega)]

/-- Extracting byte 3 of a little-endian byte packing. -/
theorem extract_byte3 {b0 b1 b2 b3 : Nat}
    (h0 : b0 < 256) (h1 : b1 < 256) (h2 : b2 < 256) (h3 : b3 < 256) :
    ((b0 ||| b1 <<< 8 ||| b2 <<< 16 ||| b3 <<< 24) >>> 24) &&& 0xff = b3 := by
  apply Nat.eq_of_testBit_eq
  intro i
  simp only [Nat.testBit_and, Nat.testBit_shiftRight, Nat.testBit_or,
    Nat.testBit_shiftLeft]
  rw [show (0xff : Nat) = 2 ^ 8 - 1 from rfl, Nat.testBit_two_pow_sub_one]
  by_cases hi : i < 8
  · have e1 : 24 + i - 8 = 16 + i := by omega
    have e2 : 24 + i - 16 = 8 + i := by omega
    have e3 : 24 + i - 24 = i := by omega
    simp [hi, byte_testBit_high h0 (show 8 ≤ 24 + i by omega),
      byte_testBit_high h1 (show 8 ≤ 16 + i by omega),
      byte_testBit_high h2 (show 8 ≤ 8 + i by omega),
      show (8 : Nat) ≤ 24 + i by omega, show (16 : Nat) ≤ 24 + i by omega,
      show (24 : Nat) ≤ 24 + i by omega, e1, e2, e3]
  · simp [hi, byte_testBit_high h3 (show 8 ≤ i by omega)]

/-- C5 counterexample: the 4-character string with bytes
`0x80 0x01 0x01 0x01` does not survive the encode/decode round trip:
`(uint32_t) name[0]` sign-extends the byte `0x80` (char is signed on
x86-64 Linux), smearing `0xFF` over the three upper bytes of the
identifier, which decodes to `0x80 0xFF 0xFF 0xFF`. -/
theorem decode_encode_roundtrip_cex :
    camera_format_name (camera_format_id 128 1 1 1) ≠ [128, 1, 1, 1] := by
  decide

/-- C5 amended: for every 4-character string whose characters are
7-bit (ASCII, byte values 1..127), decoding the identifier produced by
encoding the string yields the string again. -/
theorem decode_encode_roundtrip_ascii (b0 b1 b2 b3 : Nat)
    (h0 : 0 < b0 ∧ b0 < 128) (h1 : 0 < b1 ∧ b1 < 128)
    (h2 : 0 < b2 ∧ b2 < 128) (h3 : 0 < b3 ∧ b3 < 128) :
    camera_format_name (camera_format_id b0 b1 b2 b3) = [b0, b1, b2, b3] := by
  rw [format_id_ascii b0 b1 b2 b3 h0.2 h1.2 h2.2 h3.2]
  unfold camera_format_name
  rw [extract_byte0 (by omega), extract_byte1 (by omega) (by omega),
    extract_byte2 (by omega) (by omega) (by omega),
    extract_byte3 (by omega) (by omega) (by omega) (by omega)]

/-- Witness for the amended C5 at the string `YUYV`. -/
theorem decode_encode_roundtrip_ascii_witness :
    camera_format_name (camera_format_id 89 85 89 86) = [89, 85, 89, 86] :=
  decode_encode_roundtrip_ascii 89 85 89 86 (by omega) (by omega) (by omega)
    (by omega)

/-- Reading with `getD` after `set` at the same (in-bounds) index. -/
theorem getD_set_self {α : Type} (l : List α) (i : Nat) (v d : α)
    (h : i < l.length) : (l.set i v).getD i d = v := by
  simp [List.getD_eq_getElem?_getD, List.getElem?_set_self h]

/-- Reading with `getD` after `set` at a different index. -/
theorem getD_set_ne {α : Type} (l : List α) (i j : Nat) (v d : α)
    (h : i ≠ j) : (l.set i v).getD j d = l.getD j d := by
  simp [List.getD_eq_getElem?_getD, List.getElem?_set_ne h]

/-- Failure run of the `camera_buffer_prepare` loop: with indices up to
`i` succeeding and the device call at index `i` failing (either the
`VIDIOC_QUERYBUF` query or the `mmap`), the loop unmaps every buffer
mapped so far, nulls the collection, zeroes the count, logs the failing
operation and returns false. -/
theorem prepare_go_fail (env : PrepareEnv) (L : Nat → Nat) (i : Nat) (msg : String)
    (hq : ∀ j, j < i → env.querybuf j = some (L j))
    (hm : ∀ j, j < i → env.mmapOk j = true)
    (hfail : (env.querybuf i = none ∧ msg = "VIDIOC_QUERYBUF") ∨
             ((env.querybuf i).isSome ∧ env.mmapOk i = false ∧ msg = "mmap")) :
    ∀ (m k : Nat) (c : Camera) (bs : List CamBuffer) (bufMax : Nat),
      k ≤ i → i < k + m → c.buffers = some bs → i ≤ bs.length →
      (∀ j, j < k → bs.getD j ⟨0, 0⟩ = ⟨env.mmapAddr j, L j⟩) →
      prepare_go env c bufMax (List.range' k m) =
        (false, { c with buffers := none, buffer_count := 0 },
         ((List.range' k (i - k)).map fun j => Event.mmap (env.mmapAddr j)) ++
           ((List.range i).map fun j => Event.munmap (env.mmapAddr j) (L j)) ++
           [Event.log LogType.error msg]) := by
  intro m
  induction m with
  | zero => intro k c bs bufMax hk hik _ _ _; omega
  | succ m ih =>
    intro k c bs bufMax hk hik hbuf hlen hinv
    rw [List.range'_succ]
    by_cases hki : k = i
    · subst hki
      have hmunmaps :
          ((List.range k).map fun j =>
            Event.munmap ((bs.getD j ⟨0, 0⟩).start) ((bs.getD j ⟨0, 0⟩).length)) =
          (List.range k).map fun j => Event.munmap (env.mmapAddr j) (L j) := by
        apply List.map_congr_left
        intro j hj
        rw [hinv j (List.mem_range.mp hj)]
      rcases hfail with ⟨hqn, hmsg⟩ | ⟨hqs, hmo, hmsg⟩
      · subst hmsg
        simp only [prepare_go, hqn, free_buffers, errorEv, hbuf,
          Option.getD_some, Nat.sub_self, List.range'_zero, List.map_nil,
          List.nil_append]
        rw [hmunmaps]
      · obtain ⟨len, hqk⟩ := Option.isSome_iff_exists.mp hqs
        subst hmsg
        have hmunmaps' :
            ((List.range k).map fun j =>
              Event.munmap
                (((bs.set k { bs.getD k ⟨0, 0⟩ with length := len }).getD j ⟨0, 0⟩).start)
                (((bs.set k { bs.getD k ⟨0, 0⟩ with length := len }).getD j ⟨0, 0⟩).length)) =
            (List.range k).map fun j => Event.munmap (env.mmapAddr j) (L j) := by
          apply List.map_congr_left
          intro j hj
          rw [getD_set_ne _ _ _ _ _ (Nat.ne_of_gt (List.mem_range.mp hj)),
            hinv j (List.mem_range.mp hj)]
        simp only [prepare_go, hqk, hmo, Bool.false_eq_true, if_false,
          setBufLen, hbuf, Option.map_some', free_buffers, errorEv,
          Option.getD_some, Nat.sub_self, List.range'_zero, List.map_nil,
          List.nil_append]
        rw [hmunmaps']
    · have hklt : k < i := lt_of_le_of_ne hk hki
      have hkbs : k < bs.length := by omega
      simp only [prepare_go, hq k hklt, hm k hklt, if_true, setBufLen,
        setBufStart, hbuf, Option.map_some', Option.getD_some]
      have hset :
          ((bs.set k { bs.getD k ⟨0, 0⟩ with length := L k }).getD k ⟨0, 0⟩) =
          { bs.getD k ⟨0, 0⟩ with length := L k } :=
        getD_set_self _ _ _ _ hkbs
      rw [hset]
      have ihapp := ih (k + 1)
        { c with buffers := some ((bs.set k { bs.getD k ⟨0, 0⟩ with length := L k }).set k
            { start := env.mmapAddr k, length := L k }) }
        ((bs.set k { bs.getD k ⟨0, 0⟩ with length := L k }).set k
            { start := env.mmapAddr k, length := L k })
        (if L k > bufMax then L k else bufMax)
        (by omega) (by omega) rfl
        (by simpa using hlen)
        (by
          intro j hj
          rcases Nat.lt_succ_iff_lt_or_eq.mp hj with hjk | rfl
          · rw [getD_set_ne _ _ _ _ _ (Nat.ne_of_gt hjk),
              getD_set_ne _ _ _ _ _ (Nat.ne_of_gt hjk)]
            exact hinv j hjk
          · rw [getD_set_self _ _ _ _ (by simpa using hkbs)])
      rw [ihapp]
      refine congrArg (Prod.mk false) (congrArg _ ?_)
      rw [show i - k = (i - (k + 1)) + 1 by omega, List.range'_succ,
        List.map_cons, List.cons_append, List.cons_append]

/-- C4: if buffer allocation fails while querying or mapping the buffer
at index `i`, `camera_buffer_prepare` unmaps all `i` buffers mapped so
far, resets the collection to empty (null collection, count zero) and
returns failure: no partially mapped buffer set remains. -/
theorem buffer_prepare_failure_rolls_back (env : PrepareEnv) (c : Camera)
    (L : Nat → Nat) (n i : Nat) (msg : String)
    (hrb : env.reqbufs = some n) (hin : i < n)
    (hq : ∀ j, j < i → env.querybuf j = some (L j))
    (hm : ∀ j, j < i → env.mmapOk j = true)
    (hfail : (env.querybuf i = none ∧ msg = "VIDIOC_QUERYBUF") ∨
             ((env.querybuf i).isSome ∧ env.mmapOk i = false ∧ msg = "mmap")) :
    camera_buffer_prepare env c =
      (false, { c with buffers := none, buffer_count := 0 },
       ((List.range i).map fun j => Event.mmap (env.mmapAddr j)) ++
         ((List.range i).map fun j => Event.munmap (env.mmapAddr j) (L j)) ++
         [Event.log LogType.error msg]) := by
  unfold camera_buffer_prepare
  rw [hrb]
  simp only
  rw [List.range_eq_range' n]
  rw [prepare_go_fail env L i msg hq hm hfail n 0
    { c with buffer_count := n, buffers := some (List.replicate n ⟨0, 0⟩) }
    (List.replicate n ⟨0, 0⟩) 0 (by omega) (by omega) rfl (by simp; omega)
    (by intro j hj; omega)]
  rw [Nat.sub_zero, ← List.range_eq_range' i]

/-- Witness for C4: four buffers granted, `VIDIOC_QUERYBUF` fails at
index 2 after two buffers were mapped. -/
theorem buffer_prepare_failure_rolls_back_witness :
    camera_buffer_prepare
        ⟨some 4, fun j => if j < 2 then some (100 + j) else none,
         fun _ => true, fun j => 1000 + j⟩ (initCam 3) =
      (false, { initCam 3 with buffers := none, buffer_count := 0 },
       ((List.range 2).map fun j => Event.mmap (1000 + j)) ++
         ((List.range 2).map fun j => Event.munmap (1000 + j) (100 + j)) ++
         [Event.log LogType.error "VIDIOC_QUERYBUF"]) :=
  buffer_prepare_failure_rolls_back
    ⟨some 4, fun j => if j < 2 then some (100 + j) else none,
     fun _ => true, fun j => 1000 + j⟩ (initCam 3) (fun j => 100 + j) 4 2
    "VIDIOC_QUERYBUF" rfl (by omega)
    (fun j hj => by simp [hj])
    (fun j _ => rfl)
    (Or.inl ⟨rfl, rfl⟩)

/-- Success run of the `camera_buffer_prepare` loop: when every
remaining query and mapping succeeds, the loop returns true, emits
exactly one mmap event per index, and preserves the recorded count,
the initialization flag, and the non-nullity of the collection. -/
theorem prepare_go_success (env : PrepareEnv) :
    ∀ (l : List Nat) (c : Camera) (bufMax : Nat),
      (∀ j ∈ l, (env.querybuf j).isSome ∧ env.mmapOk j = true) →
      c.buffers.isSome = true →
      ∃ c', prepare_go env c bufMax l =
          (true, c', l.map fun j => Event.mmap (env.mmapAddr j)) ∧
        c'.buffer_count = c.buffer_count ∧ c'.inited = c.inited ∧
        c'.buffers.isSome = true := by
  intro l
  induction l with
  | nil =>
    intro c bufMax _ hb
    exact ⟨{ c with head_start := some (List.replicate bufMax 0) },
      rfl, rfl, rfl, hb⟩
  | cons j rest ih =>
    intro c bufMax hok hb
    obtain ⟨len, hqj⟩ :=
      Option.isSome_iff_exists.mp (hok j (List.mem_cons_self j rest)).1
    have hmj := (hok j (List.mem_cons_self j rest)).2
    obtain ⟨bs, hbs⟩ := Option.isSome_iff_exists.mp hb
    have hb' : (setBufStart (setBufLen c j len) j (env.mmapAddr j)).buffers.isSome
        = true := by
      simp [setBufStart, setBufLen, hbs]
    obtain ⟨c', heq, h1, h2, h3⟩ :=
      ih (setBufStart (setBufLen c j len) j (env.mmapAddr j))
        (if len > bufMax then len else bufMax)
        (fun x hx => hok x (List.mem_cons_of_mem j hx)) hb'
    refine ⟨c', ?_, h1.trans rfl, h2.trans rfl, h3⟩
    simp only [prepare_go, hqj, hmj, if_true]
    rw [heq, List.map_cons]

/-- Successful `camera_buffer_prepare`: the granted count becomes the
recorded count, the collection is non-null, and the trace is exactly
one mmap per granted buffer. -/
theorem camera_buffer_prepare_success (env : PrepareEnv) (c : Camera) (n : Nat)
    (hrb : env.reqbufs = some n)
    (hq : ∀ j, (env.querybuf j).isSome) (hmo : ∀ j, env.mmapOk j = true) :
    (camera_buffer_prepare env c).1 = true ∧
    (camera_buffer_prepare env c).2.1.buffer_count = n ∧
    (camera_buffer_prepare env c).2.1.inited = c.inited ∧
    (camera_buffer_prepare env c).2.1.buffers.isSome = true ∧
    (camera_buffer_prepare env c).2.2 =
      (List.range n).map fun j => Event.mmap (env.mmapAddr j) := by
  unfold camera_buffer_prepare
  rw [hrb]
  obtain ⟨c', heq, h1, h2, h3⟩ :=
    prepare_go_success env (List.range n)
      { c with buffer_count := n, buffers := some (List.replicate n ⟨0, 0⟩) }
      0 (fun j _ => ⟨hq j, hmo j⟩) (by simp)
  simp only
  rw [heq]
  exact ⟨rfl, h1.trans rfl, h2.trans rfl, h3, rfl⟩

/-- Successful `camera_set_config`: both ioctl outcomes positive gives
a true result with the state unchanged, and the trace (format and
frame-interval requests) contains no mmap or munmap event. -/
theorem camera_set_config_success (env : SetConfigEnv) (c : Camera)
    (cfg : CamConfig) (hsf : env.sfmt_ok = true) (hsp : env.sparm_ok = true) :
    ∃ evs, camera_set_config env c cfg = (true, c, evs) ∧
      (∀ a, Event.mmap a ∉ evs) ∧ (∀ a l, Event.munmap a l ∉ evs) := by
  by_cases h1 : cfg.width > 0 && cfg.height > 0
  · by_cases h2 : cfg.interval_numerator != 0 && cfg.interval_denominator != 0
    · refine ⟨[Event.sFmt cfg.width cfg.height
          (if cfg.format != 0 || V4L2_PIX_FMT_YUYV != 0 then 1 else 0)
          V4L2_FIELD_NONE,
        Event.sParm cfg.interval_numerator cfg.interval_denominator],
        ?_, by simp, by simp⟩
      simp [camera_set_config, h1, h2, hsf, hsp]
    · refine ⟨[Event.sFmt cfg.width cfg.height
          (if cfg.format != 0 || V4L2_PIX_FMT_YUYV != 0 then 1 else 0)
          V4L2_FIELD_NONE], ?_, by simp, by simp⟩
      simp [camera_set_config, h1, h2, hsf, hsp]
  · by_cases h2 : cfg.interval_numerator != 0 && cfg.interval_denominator != 0
    · refine ⟨[Event.sParm cfg.interval_numerator cfg.interval_denominator],
        ?_, by simp, by simp⟩
      simp [camera_set_config, h1, h2, hsf, hsp]
    · exact ⟨[], by simp [camera_set_config, h1, h2], by simp, by simp⟩

/-- An all-success `camera_config` on a device with no buffer set and
no initialization: the granted count becomes the recorded count, the
device ends initialized with a non-null collection. -/
theorem camera_config_fresh (env : ConfigEnv) (cfg : CamConfig) (c : Camera)
    (n gw gh : Nat)
    (hbc : c.buffer_count = 0) (hini : c.inited = false)
    (hcap : env.init.querycap = some (true, true))
    (hsf : env.setcfg.sfmt_ok = true) (hsp : env.setcfg.sparm_ok = true)
    (hg : env.gfmt = some (gw, gh))
    (hrb : env.prep.reqbufs = some n)
    (hq : ∀ j, (env.prep.querybuf j).isSome)
    (hmo : ∀ j, env.prep.mmapOk j = true) :
    ∃ c1 evs1, camera_config env c cfg = (true, c1, evs1) ∧
      c1.buffer_count = n ∧ c1.inited = true ∧ c1.buffers.isSome = true := by
  obtain ⟨scEvs, hsc, -, -⟩ :=
    camera_set_config_success env.setcfg { c with inited := true } cfg hsf hsp
  have hcap' : camera_init env.init c = (true, { c with inited := true }, []) := by
    unfold camera_init
    rw [hcap]
    rfl
  have hload : camera_load_settings env.gfmt { c with inited := true } =
      (true, { c with inited := true, width := gw, height := gh }, []) := by
    unfold camera_load_settings
    rw [hg]
  obtain ⟨h1, h2, h3, h4, h5⟩ := camera_buffer_prepare_success env.prep
    { c with inited := true, width := gw, height := gh } n hrb hq hmo
  refine ⟨(camera_buffer_prepare env.prep
      { c with inited := true, width := gw, height := gh }).2.1,
    scEvs ++ (camera_buffer_prepare env.prep
      { c with inited := true, width := gw, height := gh }).2.2,
    ?_, h2, h3.trans rfl, h4⟩
  simp only [hbc] at hsc hcap' hload h1
  simp only [camera_config]
  rw [hbc]
  rw [if_neg (show ¬ ((0:Nat) > 0) by omega)]
  simp only [hini, Bool.not_true, Bool.not_false, Bool.false_eq_true,
    Bool.true_eq_false, ite_true, ite_false, if_true, if_false, hcap', hsc,
    hload, List.nil_append, List.append_nil, hbc]
  rw [h1]

/-- An all-success `camera_config` on a device already holding a
buffer set: the trace is stream-off first, then exactly one munmap per
existing buffer, then a stretch of non-mapping events (snapshot
release, format and interval requests), then one mmap per newly
granted buffer; the new grant becomes the recorded count. -/
theorem camera_config_rebuild (env : ConfigEnv) (cfg : CamConfig) (c : Camera)
    (bs : List CamBuffer) (n2 gw gh : Nat)
    (hbs : c.buffers = some bs) (hbc : 0 < c.buffer_count) (hini : c.inited = true)
    (hso : env.streamoff_ok = true)
    (hsf : env.setcfg.sfmt_ok = true) (hsp : env.setcfg.sparm_ok = true)
    (hg : env.gfmt = some (gw, gh))
    (hrb : env.prep.reqbufs = some n2)
    (hq : ∀ j, (env.prep.querybuf j).isSome)
    (hmo : ∀ j, env.prep.mmapOk j = true) :
    ∃ c2 mid, camera_config env c cfg =
        (true, c2,
         Event.streamoff ::
           (((List.range c.buffer_count).map fun i =>
               Event.munmap (bs.getD i ⟨0, 0⟩).start (bs.getD i ⟨0, 0⟩).length) ++
             mid ++ ((List.range n2).map fun i => Event.mmap (env.prep.mmapAddr i)))) ∧
      c2.buffer_count = n2 ∧ (∀ a, Event.mmap a ∉ mid) := by
  obtain ⟨scEvs, hsc, hscmm, -⟩ := camera_set_config_success env.setcfg
    { c with
      buffer_count := 0, buffers := none,
      head_length := 0,
      head_start := none } cfg hsf hsp
  have hstop : camera_stop env.streamoff_ok c = (true, c, [Event.streamoff]) := by
    unfold camera_stop
    rw [hso]
    rfl
  have hfin : camera_buffer_finish c =
      ({ c with
         buffer_count := 0, buffers := none,
         head_length := 0,
         head_start := none },
       ((List.range c.buffer_count).map fun i =>
         Event.munmap (bs.getD i ⟨0, 0⟩).start (bs.getD i ⟨0, 0⟩).length) ++
        [Event.freeHead]) := by
    unfold camera_buffer_finish free_buffers
    rw [hbs]
    rfl
  have hload : camera_load_settings env.gfmt
      { c with
        buffer_count := 0, buffers := none,
        head_length := 0,
        head_start := none } =
      (true, { c with
        buffer_count := 0, buffers := none,
        head_length := 0,
        head_start := none, width := gw, height := gh }, []) := by
    unfold camera_load_settings
    rw [hg]
  obtain ⟨h1, h2, h3, h4, h5⟩ := camera_buffer_prepare_success env.prep
    { c with
      buffer_count := 0, buffers := none,
      head_length := 0,
      head_start := none, width := gw, height := gh } n2 hrb hq hmo
  refine ⟨(camera_buffer_prepare env.prep
      { c with
        buffer_count := 0, buffers := none,
        head_length := 0,
        head_start := none, width := gw, height := gh }).2.1,
    [Event.freeHead] ++ scEvs, ?_, h2, ?_⟩
  · simp only [hini] at hsc hfin hload h1 h2 h3 h4 h5
    simp only [camera_config]
    rw [if_pos hbc]
    simp only [hstop, hfin, hini, Bool.not_true, Bool.not_false,
      Bool.false_eq_true, Bool.true_eq_false, ite_true, ite_false, if_true,
      if_false, hsc, hload, h5, List.nil_append, List.append_nil]
    rw [h1]
    simp [List.append_assoc]
  · intro a ha
    rcases List.mem_append.mp ha with h | h
    · simp at h
    · exact hscmm a h

/-- C2: after two consecutive successful configure calls starting from
a freshly opened device, exactly one buffer set is allocated: the
recorded count equals the second call's grant (not the sum of both
grants), and every buffer mapped by the first call is unmapped in the
second call's trace before any new mapping occurs. -/
theorem configure_twice_no_leak
    (env1 env2 : ConfigEnv) (cfg1 cfg2 : CamConfig)
    (fd n1 n2 gw1 gh1 gw2 gh2 : Nat) (c0 : Camera)
    (h0 : camera_open (some fd) = some c0)
    (h1cap : env1.init.querycap = some (true, true))
    (h1sf : env1.setcfg.sfmt_ok = true) (h1sp : env1.setcfg.sparm_ok = true)
    (h1g : env1.gfmt = some (gw1, gh1)) (h1rb : env1.prep.reqbufs = some n1)
    (h1q : ∀ j, (env1.prep.querybuf j).isSome)
    (h1mo : ∀ j, env1.prep.mmapOk j = true)
    (hn1 : 0 < n1)
    (h2so : env2.streamoff_ok = true)
    (h2sf : env2.setcfg.sfmt_ok = true) (h2sp : env2.setcfg.sparm_ok = true)
    (h2g : env2.gfmt = some (gw2, gh2)) (h2rb : env2.prep.reqbufs = some n2)
    (h2q : ∀ j, (env2.prep.querybuf j).isSome)
    (h2mo : ∀ j, env2.prep.mmapOk j = true) :
    ∃ c1 evs1 bs1 c2 mid,
      camera_config env1 c0 cfg1 = (true, c1, evs1) ∧
      c1.buffer_count = n1 ∧ c1.buffers = some bs1 ∧
      camera_config env2 c1 cfg2 =
        (true, c2,
         Event.streamoff ::
           (((List.range n1).map fun i =>
               Event.munmap (bs1.getD i ⟨0, 0⟩).start (bs1.getD i ⟨0, 0⟩).length) ++
             mid ++ ((List.range n2).map fun i => Event.mmap (env2.prep.mmapAddr i)))) ∧
      c2.buffer_count = n2 ∧ c2.buffer_count ≠ n1 + n2 ∧
      (∀ a, Event.mmap a ∉ mid) := by
  have hc0 : c0 = initCam fd := by
    simpa [camera_open, initCam] using h0.symm
  obtain ⟨c1, evs1, heq1, hbc1, hini1, hbs1some⟩ :=
    camera_config_fresh env1 cfg1 c0 n1 gw1 gh1 (by rw [hc0]; rfl)
      (by rw [hc0]; rfl) h1cap h1sf h1sp h1g h1rb h1q h1mo
  obtain ⟨bs1, hbs1⟩ := Option.isSome_iff_exists.mp hbs1some
  obtain ⟨c2, mid, heq2, hbc2, hmid⟩ :=
    camera_config_rebuild env2 cfg2 c1 bs1 n2 gw2 gh2 hbs1 (by omega) hini1
      h2so h2sf h2sp h2g h2rb h2q h2mo
  rw [hbc1] at heq2
  exact ⟨c1, evs1, bs1, c2, mid, heq1, hbc1, hbs1, heq2, hbc2, by omega, hmid⟩

/-- Witness for C2 with two concrete all-success environments, each
granting 4 buffers, and different requested dimensions. -/
theorem configure_twice_no_leak_witness :
    ∃ c1 evs1 bs1 c2 mid,
      camera_config env1W (initCam 3) cfg1W = (true, c1, evs1) ∧
      c1.buffer_count = 4 ∧ c1.buffers = some bs1 ∧
      camera_config env2W c1 cfg2W =
        (true, c2,
         Event.streamoff ::
           (((List.range 4).map fun i =>
               Event.munmap (bs1.getD i ⟨0, 0⟩).start (bs1.getD i ⟨0, 0⟩).length) ++
             mid ++ ((List.range 4).map fun i => Event.mmap (env2W.prep.mmapAddr i)))) ∧
      c2.buffer_count = 4 ∧ c2.buffer_count ≠ 4 + 4 ∧
      (∀ a, Event.mmap a ∉ mid) :=
  configure_twice_no_leak env1W env2W cfg1W cfg2W 3 4 4 640 480 320 240
    (initCam 3) rfl rfl rfl rfl rfl rfl (fun _ => rfl) (fun _ => rfl)
    (by omega) rfl rfl rfl rfl rfl (fun _ => rfl) (fun _ => rfl)

end V4L2Camera
